import Mathlib

/-!
Verification development for the trajectory_optimization repository.

The Python sources embedded here are `backend/rocket_optimizer.py` (the
`Rocket` constants class and the `RocketLanding2D` optimization problem)
and `backend/app.py` (the Flask HTTP handler `optimize_trajectory` and its
helpers `extract_trajectory_data` and `calculate_metrics`).

Real-valued quantities are modelled as `ℝ`; the JSON/validation layer of
the HTTP handler works on exact numerals and is modelled over `ℚ` so it
stays computable.  CasADi decision-variable matrices `X` (7×(N+1)) and
`U` (4×N) are modelled as functions `Fin 7 → Fin (N+1) → ℝ` and
`Fin 4 → Fin N → ℝ`; a CasADi `Opti` problem is modelled as a record of
the constraint predicates and the objective that `setup_optimization`
installs.
-/

/-- The Python exception classes that the embedded code paths can raise. -/
inductive PyError where
  | valueError
  | typeError
  | attributeError
deriving DecidableEq, Repr

/-- `Rocket` (rocket_optimizer.py lines 17-30): static vehicle constants. -/
structure Rocket where
  Isp_main : ℝ
  Isp_rcs : ℝ
  dry_mass : ℝ
  propellant_mass : ℝ
  wet_mass : ℝ
  max_thrust_main : ℝ
  min_thrust_main : ℝ
  max_thrust_rcs : ℝ
  max_gimbal_angle : ℝ

/-- `Rocket.__init__` (rocket_optimizer.py lines 18-30): the constants it
assigns, including the derived `wet_mass = dry_mass + propellant_mass` and
`min_thrust_main = 0 * max_thrust_main`. -/
noncomputable def Rocket.new : Rocket where
  Isp_main := 282
  Isp_rcs := 200
  dry_mass := 22000
  propellant_mass := 6000
  wet_mass := 22000 + 6000
  max_thrust_main := 845000
  min_thrust_main := 0 * 845000
  max_thrust_rcs := 5000
  max_gimbal_angle := 15 * Real.pi / 180

/-- The `custom_initial_conditions` dictionary: the five keys that
`setup_initial_conditions` reads with `.get`; an absent key is `none`. -/
structure ICDict where
  horizontal_position : Option ℝ := none
  vertical_position : Option ℝ := none
  horizontal_speed : Option ℝ := none
  vertical_speed : Option ℝ := none
  theta : Option ℝ := none

/-- The state vector `vertcat(x0, y0, vx0, vy0, theta0, omega0, mass0)` that
`setup_initial_conditions` (rocket_optimizer.py lines 60-70) builds from a
dictionary: each key defaulted with `.get`, `omega0 = 0`, and
`mass0 = self.rocket.wet_mass`. -/
def x0_of_dict (rocket : Rocket) (d : ICDict) : Fin 7 → ℝ :=
  ![d.horizontal_position.getD 0, d.vertical_position.getD 1000,
    d.horizontal_speed.getD 0, d.vertical_speed.getD 0,
    d.theta.getD 0, 0, rocket.wet_mass]

/-- `RocketLanding2D.setup_initial_conditions` (rocket_optimizer.py lines
60-70), as called from `__init__` with the constructor argument: calling
`.get` on `None` raises `AttributeError`; on an actual dictionary it
returns the initial-state vector. -/
def setup_initial_conditions (rocket : Rocket) :
    Option ICDict → Except PyError (Fin 7 → ℝ)
  | none => .error .attributeError
  | some d => .ok (x0_of_dict rocket d)

/-- `RocketLanding2D` instance fields assigned by `__init__`
(rocket_optimizer.py lines 33-56): the rocket, the initial-state vector
`x0`, gravity `g = 9.81`, horizon `T = 20.0`, step count `N = 100` and
step `dt = T / N`. -/
structure RocketLanding2D where
  rocket : Rocket
  x0 : Fin 7 → ℝ
  g : ℝ
  T : ℝ
  N : ℕ
  dt : ℝ

/-- The `RocketLanding2D` value that `__init__` produces when an actual
dictionary is passed for `custom_initial_conditions`. -/
noncomputable def RocketLanding2D.ofDict (rocket : Rocket) (d : ICDict) :
    RocketLanding2D where
  rocket := rocket
  x0 := x0_of_dict rocket d
  g := 9.81
  T := 20.0
  N := 100
  dt := 20.0 / ((100 : ℕ) : ℝ)

/-- `RocketLanding2D.__init__` (rocket_optimizer.py lines 33-56): stores the
constants and forwards `custom_initial_conditions` (default `None`)
unchanged to `setup_initial_conditions`; an exception raised there
propagates out of the constructor. -/
noncomputable def RocketLanding2D.init (rocket : Rocket)
    (custom_initial_conditions : Option ICDict := none) :
    Except PyError RocketLanding2D :=
  (setup_initial_conditions rocket custom_initial_conditions).map fun v =>
    { rocket := rocket, x0 := v, g := 9.81, T := 20.0, N := 100,
      dt := 20.0 / ((100 : ℕ) : ℝ) }

/-- Python call binding for the class call `RocketLanding2D(...)`:
`rocket` is a required positional parameter of `__init__`, so a call that
does not supply it raises `TypeError` before `__init__` runs.  The second
argument is `some v` when the keyword `custom_initial_conditions=v` is
passed and `none` when the keyword is omitted (its default is `None`). -/
noncomputable def RocketLanding2D.callCtor (rocket : Option Rocket)
    (custom_initial_conditions : Option (Option ICDict)) :
    Except PyError RocketLanding2D :=
  match rocket with
  | none => .error .typeError
  | some r => RocketLanding2D.init r (custom_initial_conditions.getD none)

/-- The dynamics function `f` built by `RocketLanding2D.setup_dynamics`
(rocket_optimizer.py lines 81-152): maps (state, control) to the state
derivative `vertcat(xdot, ydot, vxdot, vydot, thetadot, omegadot, mdot)`.
State order: x, y, vx, vy, theta, omega, m; control order: T_main, delta,
T_rcs_left, T_rcs_right. -/
noncomputable def dynamics_f (rocket : Rocket) (g : ℝ)
    (state : Fin 7 → ℝ) (control : Fin 4 → ℝ) : Fin 7 → ℝ :=
  let vx := state 2
  let vy := state 3
  let theta := state 4
  let omega := state 5
  let m := state 6
  let T_main := control 0
  let delta := control 1
  let T_rcs_left := control 2
  let T_rcs_right := control 3
  let Fx_main := T_main * Real.sin delta
  let Fy_main := T_main * Real.cos delta
  let Fx_total := Fx_main * Real.cos theta - Fy_main * Real.sin theta
  let Fy_total := Fx_main * Real.sin theta + Fy_main * Real.cos theta
  let Fx_rcs := (T_rcs_right - T_rcs_left) * Real.cos theta
  let Fy_rcs := (T_rcs_right - T_rcs_left) * Real.sin theta
  let Fx_total := Fx_total + Fx_rcs
  let Fy_total := Fy_total + Fy_rcs
  let ax := Fx_total / m
  let ay := Fy_total / m - g
  let L_rcs := 5.0
  let torque := (T_rcs_right + T_rcs_left) * L_rcs
  let L_gimbal := 10.0
  let torque := torque + T_main * Real.sin delta * L_gimbal
  let I := m * (15.0 : ℝ) ^ 2
  let alpha := torque / I
  let mdot := -(T_main / (rocket.Isp_main * g) +
      (T_rcs_left + T_rcs_right) / (rocket.Isp_rcs * g))
  ![vx, vy, ax, ay, omega, alpha, mdot]

/-- The optimization problem that `RocketLanding2D.setup_optimization`
(rocket_optimizer.py lines 155-215) assembles on a CasADi `Opti` instance,
recorded as the constraint predicates and the objective over the decision
variables `X = opti.variable(7, N+1)` and `U = opti.variable(4, N)`. -/
structure OptiProblem (N : ℕ) where
  initial_condition_constraint : (Fin 7 → Fin (N + 1) → ℝ) → Prop
  dynamics_constraint :
    (Fin 7 → Fin (N + 1) → ℝ) → (Fin 4 → Fin N → ℝ) → Fin N → Prop
  control_bound_constraints : (Fin 4 → Fin N → ℝ) → Prop
  state_bound_constraints : (Fin 7 → Fin (N + 1) → ℝ) → Prop
  landing_constraints : (Fin 7 → Fin (N + 1) → ℝ) → Prop
  objective : (Fin 7 → Fin (N + 1) → ℝ) → (Fin 4 → Fin N → ℝ) → ℝ

/-- `RocketLanding2D.setup_optimization` (rocket_optimizer.py lines
155-215): the constraints and objective it installs, in source order.
`X[:, k]` is the column `fun i => X i k.castSucc`, `X[:, k+1]` the column
`fun i => X i k.succ`, `X[:, -1]` the column at `Fin.last N`. -/
noncomputable def setup_optimization (p : RocketLanding2D) :
    OptiProblem p.N where
  initial_condition_constraint := fun X => ∀ i, X i 0 = p.x0 i
  dynamics_constraint := fun X U k =>
    let k1 := dynamics_f p.rocket p.g (fun i => X i k.castSucc) (fun j => U j k)
    let k2 := dynamics_f p.rocket p.g
      ((fun i => X i k.castSucc) + (p.dt / 2) • k1) (fun j => U j k)
    let k3 := dynamics_f p.rocket p.g
      ((fun i => X i k.castSucc) + (p.dt / 2) • k2) (fun j => U j k)
    let k4 := dynamics_f p.rocket p.g
      ((fun i => X i k.castSucc) + p.dt • k3) (fun j => U j k)
    (fun i => X i k.succ) =
      (fun i => X i k.castSucc) +
        (p.dt / 6) • (k1 + (2 : ℝ) • k2 + (2 : ℝ) • k3 + k4)
  control_bound_constraints := fun U => ∀ k,
    p.rocket.min_thrust_main ≤ U 0 k ∧ U 0 k ≤ p.rocket.max_thrust_main ∧
    -p.rocket.max_gimbal_angle ≤ U 1 k ∧ U 1 k ≤ p.rocket.max_gimbal_angle ∧
    0 ≤ U 2 k ∧ U 2 k ≤ p.rocket.max_thrust_rcs ∧
    0 ≤ U 3 k ∧ U 3 k ≤ p.rocket.max_thrust_rcs
  state_bound_constraints := fun X => ∀ i,
    p.rocket.dry_mass ≤ X 6 i ∧ 0 ≤ X 1 i
  landing_constraints := fun X =>
    X 0 (Fin.last p.N) ^ 2 ≤ (10.0 : ℝ) ^ 2 ∧
    X 1 (Fin.last p.N) ≤ 5.0 ∧
    X 2 (Fin.last p.N) ^ 2 + X 3 (Fin.last p.N) ^ 2 ≤ (1.0 : ℝ) ^ 2 ∧
    X 4 (Fin.last p.N) ^ 2 ≤ (0.1 * Real.pi / 180) ^ 2 ∧
    X 5 (Fin.last p.N) ^ 2 ≤ (0.01 : ℝ) ^ 2
  objective := fun X U =>
    let fuel_cost := -(X 6 (Fin.last p.N))
    let control_effort :=
      (∑ k, U 0 k ^ 2) * 1e-8 + (∑ k, U 1 k ^ 2) * 1e-3
    let attitude_penalty := (∑ i, X 4 i ^ 2) * 10
    fuel_cost + control_effort + attitude_penalty

/-- The classical 4th-order Runge–Kutta step with the control held constant
across the four sub-stages, as the specification states it:
`k1 = f(x_k, u_k)`, `k2 = f(x_k + dt/2·k1, u_k)`, `k3 = f(x_k + dt/2·k2, u_k)`,
`k4 = f(x_k + dt·k3, u_k)`, `x_next = x_k + dt/6·(k1 + 2k2 + 2k3 + k4)`. -/
noncomputable def rk4_classical_step
    (f : (Fin 7 → ℝ) → (Fin 4 → ℝ) → Fin 7 → ℝ) (dt : ℝ)
    (x : Fin 7 → ℝ) (u : Fin 4 → ℝ) : Fin 7 → ℝ :=
  let k1 := f x u
  let k2 := f (x + (dt / 2) • k1) u
  let k3 := f (x + (dt / 2) • k2) u
  let k4 := f (x + dt • k3) u
  x + (dt / 6) • (k1 + (2 : ℝ) • k2 + (2 : ℝ) • k3 + k4)

/-- The initial guess that `RocketLanding2D.solve` (rocket_optimizer.py
lines 224-227) installs on the state variables: `X[0, i] ← 1000·(1 - i/N)`,
`X[1, i] ← 2000·(1 - i/N)`, `X[6, i] ← 5000 - 1000·i/N`; every other state
entry keeps the CasADi `Opti` default initial value 0. -/
noncomputable def solve_initial_guess_X (p : RocketLanding2D)
    (ch : Fin 7) (i : Fin (p.N + 1)) : ℝ :=
  if ch = 0 then 1000 * (1 - ((i : ℕ) : ℝ) / (p.N : ℝ))
  else if ch = 1 then 2000 * (1 - ((i : ℕ) : ℝ) / (p.N : ℝ))
  else if ch = 6 then 5000 - 1000 * ((i : ℕ) : ℝ) / (p.N : ℝ)
  else 0

/-- The initial guess that `RocketLanding2D.solve` (rocket_optimizer.py
line 229) installs on the control variables:
`U[0, :] ← max_thrust_main * 0.7`; the other control rows keep the CasADi
`Opti` default initial value 0. -/
noncomputable def solve_initial_guess_U (p : RocketLanding2D)
    (ch : Fin 4) (_k : Fin p.N) : ℝ :=
  if ch = 0 then p.rocket.max_thrust_main * 0.7 else 0

/-- Outcome of the opaque call `opti.solve()` inside
`RocketLanding2D.solve`: either it returns a solution object (whose
`X`/`U` values are `sol`), or it raises, in which case `opti.debug` still
holds the last internal iterate `dbg`. -/
inductive SolveOutcome (α : Type) where
  | success (sol : α)
  | failure (err : String) (dbg : α)

/-- The value returned by `RocketLanding2D.solve` (rocket_optimizer.py
lines 232-251): `sol.value(X), sol.value(U)` when `opti.solve()` returns,
and `opti.debug.value(X), opti.debug.value(U)` when it raises — the same
bare pair in both cases (the failure is only printed to stdout). -/
def RocketLanding2D.solve_return {α : Type} : SolveOutcome α → α
  | .success sol => sol
  | .failure _ dbg => dbg

/-- A JSON value in an `initial_conditions` field, classified by how the
Python builtin `float()` treats it: a number, a string that parses as the
float `x`, a string that does not parse, a boolean, `null`, or a composite
(array/object) value. -/
inductive JVal where
  | num (x : ℚ)
  | numStr (x : ℚ)
  | badStr (s : String)
  | jbool (b : Bool)
  | jnull
  | jarr
  | jobj
deriving DecidableEq, Repr

/-- The Python builtin `float()` as used in app.py lines 82-85: numbers and
numeric strings convert, booleans convert to 1/0, a non-numeric string
raises `ValueError`, and `None`/lists/dicts raise `TypeError`. -/
def pyFloat : JVal → Except PyError ℚ
  | .num x => .ok x
  | .numStr x => .ok x
  | .badStr _ => .error .valueError
  | .jbool b => .ok (if b then 1 else 0)
  | .jnull => .error .typeError
  | .jarr => .error .typeError
  | .jobj => .error .typeError

/-- The `initial_conditions` object of a POST /api/optimize request body:
each of the four required keys is present (`some`) or missing (`none`). -/
structure ICJson where
  vertical_position : Option JVal := none
  horizontal_position : Option JVal := none
  vertical_speed : Option JVal := none
  horizontal_speed : Option JVal := none
deriving DecidableEq

/-- app.py lines 82-85, the four `float(...)` conversions in source order
(`x0` from horizontal_position first); the first exception raised wins. -/
def parse_floats (ic : ICJson) : Except PyError (ℚ × ℚ × ℚ × ℚ) := do
  let x0 ← pyFloat (ic.horizontal_position.getD .jnull)
  let y0 ← pyFloat (ic.vertical_position.getD .jnull)
  let vx0 ← pyFloat (ic.horizontal_speed.getD .jnull)
  let vy0 ← pyFloat (ic.vertical_speed.getD .jnull)
  return (x0, y0, vx0, vy0)

/-- The trajectory object built by `extract_trajectory_data` (app.py lines
145-163) for the runtime shapes 7×101 and 4×100 (`N = 100`). -/
structure Trajectory where
  time : Fin 101 → ℝ
  horizontal_position : Fin 101 → ℝ
  vertical_position : Fin 101 → ℝ
  horizontal_velocity : Fin 101 → ℝ
  vertical_velocity : Fin 101 → ℝ
  thrust_horizontal : Fin 100 → ℝ
  thrust_vertical : Fin 100 → ℝ

/-- `extract_trajectory_data` (app.py lines 145-163): the time vector is
`np.linspace(0, rocket.T, rocket.N + 1)` with `N = 100`, the channels are
rows of the raw solution arrays. -/
noncomputable def extract_trajectory_data (T : ℝ)
    (x_opt : Fin 7 → Fin 101 → ℝ) (u_opt : Fin 4 → Fin 100 → ℝ) :
    Trajectory where
  time := fun i => T * ((i : ℕ) : ℝ) / 100
  horizontal_position := x_opt 0
  vertical_position := x_opt 1
  horizontal_velocity := x_opt 2
  vertical_velocity := x_opt 3
  thrust_horizontal := u_opt 0
  thrust_vertical := u_opt 1

/-- The metrics object built by `calculate_metrics` (app.py lines 165-211). -/
structure Metrics where
  landing_error : ℝ
  fuel_consumption : ℝ
  flight_time : ℝ
  max_velocity : ℝ
  max_thrust : ℝ
  final_position : ℝ × ℝ
  final_velocity : ℝ × ℝ
  success : Prop

/-- `calculate_metrics` (app.py lines 165-211), at the runtime shapes
7×101 and 4×100: final position/velocity from the last column,
`landing_error = sqrt(final_x² + final_y²)`, `fuel_consumption` the sum of
instantaneous commanded-thrust magnitudes, `flight_time = rocket.T`,
`max_velocity`/`max_thrust` maxima of Euclidean norms over the horizon,
and `success = landing_error < 1.0`.  The `x0 y0 vx0 vy0` arguments are
passed by the caller but unused, as in the source. -/
noncomputable def calculate_metrics (x_opt : Fin 7 → Fin 101 → ℝ)
    (u_opt : Fin 4 → Fin 100 → ℝ) (T : ℝ) (_x0 _y0 _vx0 _vy0 : ℚ) :
    Metrics :=
  let final_x := x_opt 0 (Fin.last 100)
  let final_y := x_opt 1 (Fin.last 100)
  let final_vx := x_opt 2 (Fin.last 100)
  let final_vy := x_opt 3 (Fin.last 100)
  let landing_error := Real.sqrt (final_x ^ 2 + final_y ^ 2)
  { landing_error := landing_error
    fuel_consumption := ∑ k, Real.sqrt (u_opt 0 k ^ 2 + u_opt 1 k ^ 2)
    flight_time := T
    max_velocity := Finset.univ.sup' Finset.univ_nonempty
      fun i : Fin 101 => Real.sqrt (x_opt 2 i ^ 2 + x_opt 3 i ^ 2)
    max_thrust := Finset.univ.sup' Finset.univ_nonempty
      fun k : Fin 100 => Real.sqrt (u_opt 0 k ^ 2 + u_opt 1 k ^ 2)
    final_position := (final_x, final_y)
    final_velocity := (final_vx, final_vy)
    success := landing_error < 1.0 }

/-- The 200-response body of POST /api/optimize (app.py lines 122-132). -/
structure OkBody where
  success : Bool
  trajectory : Trajectory
  metrics : Metrics
  initial_conditions : ℚ × ℚ × ℚ × ℚ

/-- A response of the /api/optimize handler, by status code. -/
inductive ApiResponse where
  | ok (body : OkBody)
  | badRequest (error : String)
  | serverError (error : String)

/-- The HTTP status code of a handler response: 200, 400 or 500. -/
def ApiResponse.statusCode : ApiResponse → ℕ
  | .ok _ => 200
  | .badRequest _ => 400
  | .serverError _ => 500

/-- One run of the /api/optimize handler: the response, whether the
`RocketLanding2D(...)` constructor call at app.py line 106 was reached,
and whether `rocket.solve()` at line 114 was called. -/
structure HandlerRun where
  response : ApiResponse
  ctor_reached : Bool
  solve_called : Bool

/-- The arrays `(x_opt, u_opt)` handled by the /api/optimize success path. -/
def SolArrays : Type := (Fin 7 → Fin 101 → ℝ) × (Fin 4 → Fin 100 → ℝ)

/-- The all-zero solution arrays, used as concrete evaluation points. -/
def zeroSol : SolArrays := (fun _ _ => 0, fun _ _ => 0)

/-- `optimize_trajectory` (app.py lines 51-143) on a request whose body
contains an `initial_conditions` object: the required-field loop, the
`float` conversions (a `ValueError` anywhere in the handler is answered
400 "Invalid number format", any other exception 500 "Unexpected error"),
the three bound checks, the engine-availability check, the constructor
call (which omits the required positional `rocket` argument), and — if a
problem were constructed — the solve/extract/jsonify success path.
`outcome` stands for the opaque result of `opti.solve()` inside
`rocket.solve()`. -/
noncomputable def optimize_trajectory (engineAvailable : Bool)
    (outcome : SolveOutcome SolArrays) (ic : ICJson) : HandlerRun :=
  if ic.vertical_position.isNone then
    ⟨.badRequest "Missing required field: vertical_position", false, false⟩
  else if ic.horizontal_position.isNone then
    ⟨.badRequest "Missing required field: horizontal_position", false, false⟩
  else if ic.vertical_speed.isNone then
    ⟨.badRequest "Missing required field: vertical_speed", false, false⟩
  else if ic.horizontal_speed.isNone then
    ⟨.badRequest "Missing required field: horizontal_speed", false, false⟩
  else
    match parse_floats ic with
    | .error .valueError => ⟨.badRequest "Invalid number format", false, false⟩
    | .error _ => ⟨.serverError "Unexpected error", false, false⟩
    | .ok (x0, y0, vx0, vy0) =>
      if y0 < 0 ∨ y0 > 2000 then
        ⟨.badRequest "Vertical position must be between 0 and 2000 m",
          false, false⟩
      else if |x0| > 1500 then
        ⟨.badRequest "Horizontal position must be between -1500 and 1500 m",
          false, false⟩
      else if |vx0| > 50 ∨ |vy0| > 50 then
        ⟨.badRequest "Velocity components must be between -50 and 50 m/s",
          false, false⟩
      else
        match engineAvailable with
        | false => ⟨.serverError "Optimization engine not available", false, false⟩
        | true =>
          match RocketLanding2D.callCtor none (some (some
              { horizontal_position := some ((x0 : ℚ) : ℝ),
                vertical_position := some ((y0 : ℚ) : ℝ),
                horizontal_speed := some ((vx0 : ℚ) : ℝ),
                vertical_speed := some ((vy0 : ℚ) : ℝ) })) with
          | .error _ =>
            ⟨.serverError
              "Unexpected error: __init__ missing 1 required positional argument: rocket",
              true, false⟩
          | .ok p =>
            let sol := RocketLanding2D.solve_return outcome
            let body : OkBody :=
              { success := true
                trajectory := extract_trajectory_data p.T sol.1 sol.2
                metrics := calculate_metrics sol.1 sol.2 p.T x0 y0 vx0 vy0
                initial_conditions := (x0, y0, vx0, vy0) }
            ⟨.ok body, true, true⟩

/-- An all-numeric `initial_conditions` object. -/
def icNum (x0 y0 vx0 vy0 : ℚ) : ICJson where
  vertical_position := some (.num y0)
  horizontal_position := some (.num x0)
  vertical_speed := some (.num vy0)
  horizontal_speed := some (.num vx0)

/-- The nominal valid request body: the published defaults
(vertical_position 1000, the rest 0), all numeric and within bounds. -/
def validRequest : ICJson := icNum 0 1000 0 0

/-- A request whose `vertical_position` is JSON `null` and whose other
three fields are the number 0. -/
def nullRequest : ICJson :=
  { icNum 0 0 0 0 with vertical_position := some .jnull }

/-- The claimed objective: `-m[N] + 1e-8·Σ T_main[k]² + 1e-3·Σ δ[k]² +
10·Σ θ[k]²`, the control sums over the `N` control samples and the
attitude sum over all `N+1` state samples, and no other terms. -/
noncomputable def claim_objective (p : RocketLanding2D)
    (X : Fin 7 → Fin (p.N + 1) → ℝ) (U : Fin 4 → Fin p.N → ℝ) : ℝ :=
  -(X 6 (Fin.last p.N)) + 1e-8 * (∑ k, U 0 k ^ 2)
    + 1e-3 * (∑ k, U 1 k ^ 2) + 10 * (∑ i, X 4 i ^ 2)

/-- A `RocketLanding2D` built from the dictionary
`{horizontal_position: 500, vertical_position: 1000, horizontal_speed: 0,
vertical_speed: 0}`. -/
noncomputable def p500 : RocketLanding2D :=
  RocketLanding2D.ofDict Rocket.new
    { horizontal_position := some 500, vertical_position := some 1000,
      horizontal_speed := some 0, vertical_speed := some 0 }

/-- C1: the claim says a valid POST /api/optimize request reaches the
solve and is answered 200 on solve success, 500 only if the solver is
unavailable or the solve faults.  In the code, the handler's constructor
call `RocketLanding2D(custom_initial_conditions=...)` omits the required
positional `rocket` argument and raises `TypeError`, so the nominal valid
request (the published defaults) is answered 500 by the generic exception
handler, with the engine available and the solve never called. -/
theorem C1_valid_request_answered_500 :
    (optimize_trajectory true (SolveOutcome.success zeroSol) validRequest).response
        = ApiResponse.serverError
            "Unexpected error: __init__ missing 1 required positional argument: rocket"
      ∧ (optimize_trajectory true (SolveOutcome.success zeroSol)
          validRequest).solve_called = false := by
  exact ⟨rfl, rfl⟩

/-- C2 counterexample: the value `RocketLanding2D.solve` returns for a
converged solve and for a failed solve whose last iterate is the same
arrays are identical, so the return carries no failure indication and the
caller cannot distinguish the two cases, contrary to the claim. -/
theorem C2_counterexample_indistinguishable_return :
    RocketLanding2D.solve_return (SolveOutcome.success zeroSol)
      = RocketLanding2D.solve_return
          (SolveOutcome.failure "Maximum_Iterations_Exceeded" zeroSol) := rfl

/-- C2 amended: when `opti.solve()` raises, `solve` still returns the last
internal iterate (`opti.debug` values), with the same shape as a converged
solution, but as the same bare pair a success returns — the failure is
only printed, not part of the returned value. -/
theorem C2_failure_returns_bare_last_iterate {α : Type} (err : String)
    (dbg sol : α) :
    RocketLanding2D.solve_return (SolveOutcome.failure err dbg) = dbg
      ∧ RocketLanding2D.solve_return (SolveOutcome.success sol) = sol :=
  ⟨rfl, rfl⟩

/-- C3 counterexample: for the supplied initial condition
`horizontal_position = 500`, the claim says the x-channel guess starts at
the supplied value 500; the code's guess at sample 0 is the hard-coded
`1000·(1 - 0/N) = 1000 ≠ 500`. -/
theorem C3_counterexample_guess_ignores_supplied_x :
    solve_initial_guess_X p500 0 0 = 1000 ∧ p500.x0 0 = 500
      ∧ (1000 : ℝ) ≠ 500 := by
  refine ⟨?_, rfl, by norm_num⟩
  simp [solve_initial_guess_X]

/-- C3 amended: the initial guess is independent of the supplied initial
conditions: it linearly interpolates the x state channel from the
hard-coded 1000 to 0 and the y channel from 2000 to 0 over the N+1
samples, the mass channel from 5000 down to 4000, seeds the main thrust at
70% of `max_thrust_main` at every step, and leaves every other decision
variable at zero. -/
theorem C3_guess_is_hardcoded (rocket : Rocket) (d : ICDict) :
    (∀ i, solve_initial_guess_X (RocketLanding2D.ofDict rocket d) 0 i
        = 1000 + ((i : ℕ) : ℝ) / ((RocketLanding2D.ofDict rocket d).N : ℝ)
            * (0 - 1000))
  ∧ (∀ i, solve_initial_guess_X (RocketLanding2D.ofDict rocket d) 1 i
        = 2000 + ((i : ℕ) : ℝ) / ((RocketLanding2D.ofDict rocket d).N : ℝ)
            * (0 - 2000))
  ∧ (∀ i, solve_initial_guess_X (RocketLanding2D.ofDict rocket d) 6 i
        = 5000 + ((i : ℕ) : ℝ) / ((RocketLanding2D.ofDict rocket d).N : ℝ)
            * (4000 - 5000))
  ∧ (∀ (ch : Fin 7) (i : Fin ((RocketLanding2D.ofDict rocket d).N + 1)),
        ch ≠ 0 → ch ≠ 1 → ch ≠ 6 →
        solve_initial_guess_X (RocketLanding2D.ofDict rocket d) ch i = 0)
  ∧ (∀ k, solve_initial_guess_U (RocketLanding2D.ofDict rocket d) 0 k
        = rocket.max_thrust_main * 0.7)
  ∧ (∀ (ch : Fin 4) (k : Fin (RocketLanding2D.ofDict rocket d).N), ch ≠ 0 →
        solve_initial_guess_U (RocketLanding2D.ofDict rocket d) ch k = 0) := by
  refine ⟨fun i => ?_, fun i => ?_, fun i => ?_,
    fun ch i h0 h1 h6 => ?_, fun k => ?_, fun ch k h0 => ?_⟩
  · have h : solve_initial_guess_X (RocketLanding2D.ofDict rocket d) 0 i
        = 1000 * (1 - ((i : ℕ) : ℝ) /
            ((RocketLanding2D.ofDict rocket d).N : ℝ)) := rfl
    rw [h]; ring
  · have h : solve_initial_guess_X (RocketLanding2D.ofDict rocket d) 1 i
        = 2000 * (1 - ((i : ℕ) : ℝ) /
            ((RocketLanding2D.ofDict rocket d).N : ℝ)) := rfl
    rw [h]; ring
  · have h : solve_initial_guess_X (RocketLanding2D.ofDict rocket d) 6 i
        = 5000 - 1000 * ((i : ℕ) : ℝ) /
            ((RocketLanding2D.ofDict rocket d).N : ℝ) := rfl
    rw [h]; ring
  · simp only [solve_initial_guess_X]
    rw [if_neg h0, if_neg h1, if_neg h6]
  · rfl
  · simp only [solve_initial_guess_U, if_neg h0]

/-- C3 witness for the amended theorem, at channel 2, sample 0 of the
problem built from the empty dictionary. -/
theorem C3_guess_is_hardcoded_witness :
    solve_initial_guess_X (RocketLanding2D.ofDict Rocket.new {}) 2 0 = 0 :=
  (C3_guess_is_hardcoded Rocket.new {}).2.2.2.1 2 0
    (by decide) (by decide) (by decide)

/-- C4: for every step k, the dynamics constraint that
`setup_optimization` installs is exactly
`State[k+1] == the classical RK4 step` applied to `(State[k], Control[k])`
with the control held constant across the four sub-stages and
`dt = T / N`. -/
theorem C4_dynamics_constraint_is_classical_rk4 (rocket : Rocket) (d : ICDict)
    (X : Fin 7 → Fin ((RocketLanding2D.ofDict rocket d).N + 1) → ℝ)
    (U : Fin 4 → Fin (RocketLanding2D.ofDict rocket d).N → ℝ)
    (k : Fin (RocketLanding2D.ofDict rocket d).N) :
    (setup_optimization (RocketLanding2D.ofDict rocket d)).dynamics_constraint
        X U k ↔
      (fun i => X i k.succ) =
        rk4_classical_step
          (dynamics_f rocket (RocketLanding2D.ofDict rocket d).g)
          ((RocketLanding2D.ofDict rocket d).T /
            ((RocketLanding2D.ofDict rocket d).N : ℝ))
          (fun i => X i k.castSucc) (fun j => U j k) :=
  Iff.rfl

/-- C5: the mass-derivative component of the dynamics function equals
`-(T_main/(Isp_main·g) + (T_rcs_l + T_rcs_r)/(Isp_rcs·g))`, and it is
strictly negative whenever any of the three thrust magnitudes is
nonzero. -/
theorem C5_mass_flow_rate (state : Fin 7 → ℝ) (control : Fin 4 → ℝ)
    (hm : 0 ≤ control 0) (hl : 0 ≤ control 2) (hr : 0 ≤ control 3)
    (hnz : control 0 ≠ 0 ∨ control 2 ≠ 0 ∨ control 3 ≠ 0) :
    dynamics_f Rocket.new 9.81 state control 6
        = -(control 0 / (Rocket.new.Isp_main * 9.81)
            + (control 2 + control 3) / (Rocket.new.Isp_rcs * 9.81))
      ∧ dynamics_f Rocket.new 9.81 state control 6 < 0 := by
  have heq : dynamics_f Rocket.new 9.81 state control 6
      = -(control 0 / (282 * 9.81)
          + (control 2 + control 3) / (200 * 9.81)) := rfl
  refine ⟨heq, ?_⟩
  rw [heq]
  have h282 : (0 : ℝ) < 282 * 9.81 := by norm_num
  have h200 : (0 : ℝ) < 200 * 9.81 := by norm_num
  have hpos : 0 < control 0 / (282 * 9.81)
      + (control 2 + control 3) / (200 * 9.81) := by
    rcases hnz with h | h | h
    · exact add_pos_of_pos_of_nonneg
        (div_pos (lt_of_le_of_ne hm (Ne.symm h)) h282)
        (div_nonneg (add_nonneg hl hr) h200.le)
    · exact add_pos_of_nonneg_of_pos (div_nonneg hm h282.le)
        (div_pos (add_pos_of_pos_of_nonneg (lt_of_le_of_ne hl (Ne.symm h)) hr)
          h200)
    · exact add_pos_of_nonneg_of_pos (div_nonneg hm h282.le)
        (div_pos (add_pos_of_nonneg_of_pos hl (lt_of_le_of_ne hr (Ne.symm h)))
          h200)
  linarith

/-- C5 witness: at full unit thrust on all three thrusters the mass
derivative is strictly negative. -/
theorem C5_mass_flow_rate_witness :
    dynamics_f Rocket.new 9.81 (fun _ => 0) (fun _ => 1) 6 < 0 :=
  (C5_mass_flow_rate (fun _ => 0) (fun _ => 1) zero_le_one zero_le_one
    zero_le_one (Or.inl one_ne_zero)).2

/-- C6: the objective minimized by the assembled problem is exactly
`-m[N] + 1e-8·Σ T_main[k]² + 1e-3·Σ δ[k]² + 10·Σ θ[k]²`, the control sums
over the N control samples, the attitude sum over all N+1 state samples,
and no other terms. -/
theorem C6_objective_exact (rocket : Rocket) (d : ICDict)
    (X : Fin 7 → Fin ((RocketLanding2D.ofDict rocket d).N + 1) → ℝ)
    (U : Fin 4 → Fin (RocketLanding2D.ofDict rocket d).N → ℝ) :
    (setup_optimization (RocketLanding2D.ofDict rocket d)).objective X U
      = claim_objective (RocketLanding2D.ofDict rocket d) X U := by
  simp only [setup_optimization, claim_objective]
  ring

/-- C7: for every custom-initial-conditions dictionary, the assembled
problem constrains `State[0]` to equal exactly the 7-vector built from the
dictionary: horizontal_position (default 0), vertical_position (default
1000), the two speeds and theta (default 0), angular velocity 0, and the
rocket's wet mass. -/
theorem C7_initial_state_constraint (rocket : Rocket) (d : ICDict)
    (X : Fin 7 → Fin ((RocketLanding2D.ofDict rocket d).N + 1) → ℝ) :
    (setup_optimization
        (RocketLanding2D.ofDict rocket d)).initial_condition_constraint X ↔
      (X 0 0 = d.horizontal_position.getD 0 ∧
       X 1 0 = d.vertical_position.getD 1000 ∧
       X 2 0 = d.horizontal_speed.getD 0 ∧
       X 3 0 = d.vertical_speed.getD 0 ∧
       X 4 0 = d.theta.getD 0 ∧
       X 5 0 = 0 ∧
       X 6 0 = rocket.wet_mass) := by
  constructor
  · intro h
    exact ⟨h 0, h 1, h 2, h 3, h 4, h 5, h 6⟩
  · rintro ⟨h0, h1, h2, h3, h4, h5, h6⟩ i
    fin_cases i
    · exact h0
    · exact h1
    · exact h2
    · exact h3
    · exact h4
    · exact h5
    · exact h6

/-- C8 counterexample: a request whose `vertical_position` is JSON `null`
(a present, non-numeric field) is answered 500 ("Unexpected error", from
the `TypeError` that `float(None)` raises), not 400 as the claim states. -/
theorem C8_counterexample_null_field_is_500 :
    (optimize_trajectory true (SolveOutcome.success zeroSol)
        nullRequest).response.statusCode = 500
      ∧ (optimize_trajectory true (SolveOutcome.success zeroSol)
          nullRequest).response.statusCode ≠ 400 := by
  have h : (optimize_trajectory true (SolveOutcome.success zeroSol)
      nullRequest).response.statusCode = 500 := rfl
  exact ⟨h, by rw [h]; norm_num⟩

/-- Reduction of the handler on an all-numeric request: the field checks
and float conversions succeed and only the bound checks, the
engine-availability check and the constructor call remain. -/
theorem optimize_trajectory_icNum_eq (avail : Bool)
    (outcome : SolveOutcome SolArrays) (x0 y0 vx0 vy0 : ℚ) :
    optimize_trajectory avail outcome (icNum x0 y0 vx0 vy0)
      = if y0 < 0 ∨ y0 > 2000 then
          ⟨.badRequest "Vertical position must be between 0 and 2000 m",
            false, false⟩
        else if |x0| > 1500 then
          ⟨.badRequest "Horizontal position must be between -1500 and 1500 m",
            false, false⟩
        else if |vx0| > 50 ∨ |vy0| > 50 then
          ⟨.badRequest "Velocity components must be between -50 and 50 m/s",
            false, false⟩
        else match avail with
          | false => ⟨.serverError "Optimization engine not available",
              false, false⟩
          | true => ⟨.serverError
              "Unexpected error: __init__ missing 1 required positional argument: rocket",
              true, false⟩ := rfl

/-- C8 amended, over every request and every one of the four fields.
A missing field is answered 400 "Missing required field: ..." naming the
first missing field in the handler's loop order (vertical_position,
horizontal_position, vertical_speed, horizontal_speed); a numeric value
out of the published bounds is answered 400 citing the violated bound (in
particular vertical_position = -100); when all four fields are present and
the `float` conversions (in the code's order horizontal_position,
vertical_position, horizontal_speed, vertical_speed) first fail with
`ValueError` — which is what a non-numeric string in any field raises —
the answer is 400 "Invalid number format"; when they first fail with
`TypeError` — which is what a JSON null, array or object in any field
raises — the answer is 500 "Unexpected error", not 400.  In every one of
these cases the constructor call is never reached and the solver is never
invoked. -/
theorem C8_validation_amended (avail : Bool)
    (outcome : SolveOutcome SolArrays) :
    (∀ ic : ICJson, ic.vertical_position = none →
        optimize_trajectory avail outcome ic
          = ⟨.badRequest "Missing required field: vertical_position",
              false, false⟩)
  ∧ (∀ ic : ICJson, ic.vertical_position ≠ none →
        ic.horizontal_position = none →
        optimize_trajectory avail outcome ic
          = ⟨.badRequest "Missing required field: horizontal_position",
              false, false⟩)
  ∧ (∀ ic : ICJson, ic.vertical_position ≠ none →
        ic.horizontal_position ≠ none → ic.vertical_speed = none →
        optimize_trajectory avail outcome ic
          = ⟨.badRequest "Missing required field: vertical_speed",
              false, false⟩)
  ∧ (∀ ic : ICJson, ic.vertical_position ≠ none →
        ic.horizontal_position ≠ none → ic.vertical_speed ≠ none →
        ic.horizontal_speed = none →
        optimize_trajectory avail outcome ic
          = ⟨.badRequest "Missing required field: horizontal_speed",
              false, false⟩)
  ∧ (∀ x0 y0 vx0 vy0 : ℚ, (y0 < 0 ∨ y0 > 2000) →
        optimize_trajectory avail outcome (icNum x0 y0 vx0 vy0)
          = ⟨.badRequest "Vertical position must be between 0 and 2000 m",
              false, false⟩)
  ∧ (∀ x0 y0 vx0 vy0 : ℚ, ¬(y0 < 0 ∨ y0 > 2000) → |x0| > 1500 →
        optimize_trajectory avail outcome (icNum x0 y0 vx0 vy0)
          = ⟨.badRequest "Horizontal position must be between -1500 and 1500 m",
              false, false⟩)
  ∧ (∀ x0 y0 vx0 vy0 : ℚ, ¬(y0 < 0 ∨ y0 > 2000) → ¬(|x0| > 1500) →
        (|vx0| > 50 ∨ |vy0| > 50) →
        optimize_trajectory avail outcome (icNum x0 y0 vx0 vy0)
          = ⟨.badRequest "Velocity components must be between -50 and 50 m/s",
              false, false⟩)
  ∧ (∀ ic : ICJson, ic.vertical_position ≠ none →
        ic.horizontal_position ≠ none → ic.vertical_speed ≠ none →
        ic.horizontal_speed ≠ none →
        parse_floats ic = .error .valueError →
        optimize_trajectory avail outcome ic
          = ⟨.badRequest "Invalid number format", false, false⟩)
  ∧ (∀ ic : ICJson, ic.vertical_position ≠ none →
        ic.horizontal_position ≠ none → ic.vertical_speed ≠ none →
        ic.horizontal_speed ≠ none →
        parse_floats ic = .error .typeError →
        optimize_trajectory avail outcome ic
          = ⟨.serverError "Unexpected error", false, false⟩)
  ∧ (∀ s : String, pyFloat (.badStr s) = .error .valueError)
  ∧ (pyFloat .jnull = .error .typeError
      ∧ pyFloat .jarr = .error .typeError
      ∧ pyFloat .jobj = .error .typeError) := by
  refine ⟨fun ic h => ?_, fun ic h1 h2 => ?_, fun ic h1 h2 h3 => ?_,
    fun ic h1 h2 h3 h4 => ?_, fun x0 y0 vx0 vy0 h => ?_,
    fun x0 y0 vx0 vy0 h1 h2 => ?_, fun x0 y0 vx0 vy0 h1 h2 h3 => ?_,
    fun ic h1 h2 h3 h4 hp => ?_, fun ic h1 h2 h3 h4 hp => ?_,
    fun s => rfl, rfl, rfl, rfl⟩
  · simp [optimize_trajectory, h]
  · simp [optimize_trajectory, Option.isNone_iff_eq_none, h1, h2]
  · simp [optimize_trajectory, Option.isNone_iff_eq_none, h1, h2, h3]
  · simp [optimize_trajectory, Option.isNone_iff_eq_none, h1, h2, h3, h4]
  · rw [optimize_trajectory_icNum_eq, if_pos h]
  · rw [optimize_trajectory_icNum_eq, if_neg h1, if_pos h2]
  · rw [optimize_trajectory_icNum_eq, if_neg h1, if_neg h2, if_pos h3]
  · simp [optimize_trajectory, Option.isNone_iff_eq_none, h1, h2, h3, h4, hp]
  · simp [optimize_trajectory, Option.isNone_iff_eq_none, h1, h2, h3, h4, hp]

/-- C8 witness (Scenario B): the out-of-range request
`{vertical_position: -100, horizontal_position: 0, vertical_speed: 0,
horizontal_speed: 0}` is answered 400 citing the vertical-position bound,
with the constructor never reached and the solver never invoked. -/
theorem C8_validation_amended_witness :
    optimize_trajectory true (SolveOutcome.success zeroSol)
        (icNum 0 (-100) 0 0)
      = ⟨ApiResponse.badRequest
          "Vertical position must be between 0 and 2000 m", false, false⟩ :=
  (C8_validation_amended true
      (SolveOutcome.success zeroSol)).2.2.2.2.1 0 (-100) 0 0
    (Or.inl (by norm_num))

/-- C9: for every raw solution array, `landing_error` equals the Euclidean
norm of the final (x, y) position, and `metrics.success` holds if and only
if `landing_error < 1.0`. -/
theorem C9_landing_error_and_success (x_opt : Fin 7 → Fin 101 → ℝ)
    (u_opt : Fin 4 → Fin 100 → ℝ) (T : ℝ) (x0 y0 vx0 vy0 : ℚ) :
    (calculate_metrics x_opt u_opt T x0 y0 vx0 vy0).landing_error
        = ‖((WithLp.equiv 2 (Fin 2 → ℝ)).symm
            ![x_opt 0 (Fin.last 100), x_opt 1 (Fin.last 100)] :
              EuclideanSpace ℝ (Fin 2))‖
      ∧ ((calculate_metrics x_opt u_opt T x0 y0 vx0 vy0).success ↔
          (calculate_metrics x_opt u_opt T x0 y0 vx0 vy0).landing_error
            < 1.0) := by
  constructor
  · rw [EuclideanSpace.norm_eq]
    simp [calculate_metrics, Fin.sum_univ_two, Real.norm_eq_abs, sq_abs,
      WithLp.equiv_symm_pi_apply]
  · exact Iff.rfl

/-- C10: `RocketLanding2D(rocket)` without `custom_initial_conditions`
forwards `None` to `setup_initial_conditions`, whose `.get` call raises
`AttributeError`; the documented dictionary defaults are applied exactly
when an actual (possibly empty) dictionary is passed. -/
theorem C10_ctor_none_raises_attribute_error (rocket : Rocket) :
    RocketLanding2D.init rocket none = .error .attributeError
      ∧ ∀ d : ICDict, RocketLanding2D.init rocket (some d)
          = .ok (RocketLanding2D.ofDict rocket d) :=
  ⟨rfl, fun _ => rfl⟩
